import Mathlib

/-
Verification of the candidate-dashboard API server (api_server.py).

The server's tabular data model is embedded shallowly:
* a pandas scalar cell is a `PyVal` (a string, a finite number modelled as a
  rational, or a missing value NaN; Python `None` behaves like NaN in every
  code path modelled here, and non-finite floats are outside the rational
  model);
* a pandas DataFrame is a `DF`: a list of column labels plus a list of rows,
  each row a list of cells indexed positionally by the column list
  (duplicate column labels resolve to the first occurrence);
* network / CSV-parse effects of `pd.read_csv` are an explicit
  `Except Unit DF` fetch outcome passed to the loaders;
* a Python exception escaping a region is an `Except PyErr` error value;
* Flask JSON responses are per-endpoint inductives carrying either the
  success payload (HTTP 200) or an error body `{'error': msg}` with its
  HTTP status code.
-/

attribute [local semireducible] Rat.add Rat.mul Rat.sub Rat.inv Rat.ofScientific

instance {ε α : Type} [DecidableEq ε] [DecidableEq α] : DecidableEq (Except ε α) := fun a b =>
  match a, b with
  | Except.ok x, Except.ok y =>
    if h : x = y then isTrue (by rw [h]) else isFalse (fun hc => h (Except.ok.inj hc))
  | Except.error x, Except.error y =>
    if h : x = y then isTrue (by rw [h]) else isFalse (fun hc => h (Except.error.inj hc))
  | Except.ok _, Except.error _ => isFalse (fun hc => Except.noConfusion hc)
  | Except.error _, Except.ok _ => isFalse (fun hc => Except.noConfusion hc)

/-- A scalar cell of a pandas DataFrame: a string, a finite number
(modelled as a rational), or a missing value (NaN). -/
inductive PyVal where
  | str (s : String)
  | num (q : Rat)
  | nan
deriving DecidableEq, Repr

/-- A pandas DataFrame: column labels plus rows of cells, matched
positionally. Column labels are modelled as strings (the loaders only ever
see string headers from CSV parsing). -/
structure DF where
  cols : List String
  rows : List (List PyVal)
deriving DecidableEq, Repr

/-- `df.empty` in pandas: true when either axis has length zero. -/
def DF.isEmpty (df : DF) : Bool :=
  df.rows.isEmpty || df.cols.isEmpty

/-- Index of the first column with the given label (pandas label lookup). -/
def colIdxAux (c : String) : List String → Option Nat
  | [] => none
  | c' :: rest => if c' == c then some 0 else (colIdxAux c rest).map (· + 1)

/-- `df[c]` label resolution: index of column `c`, if present. -/
def DF.colIdx (df : DF) (c : String) : Option Nat :=
  colIdxAux c df.cols

/-- `row.get(c, d)` on a pandas row Series: the cell under label `c`, or the
default `d` when the label is absent. -/
def rowGet (df : DF) (r : List PyVal) (c : String) (d : PyVal) : PyVal :=
  match df.colIdx c with
  | some i => r.getD i PyVal.nan
  | none => d

/-- `df.dropna(how="all")`: keep only rows with at least one non-NaN cell. -/
def dropAllNaN (rows : List (List PyVal)) : List (List PyVal) :=
  rows.filter (fun r => r.any (fun v => !(v == PyVal.nan)))

/-- `df.fillna("")`: replace every NaN cell by the empty string. -/
def fillBlank (rows : List (List PyVal)) : List (List PyVal) :=
  rows.map (fun r => r.map (fun v => if v == PyVal.nan then PyVal.str "" else v))

/-- Python `str.strip()` restricted to ASCII whitespace, on a char list. -/
def trimChars (cs : List Char) : List Char :=
  ((cs.dropWhile Char.isWhitespace).reverse.dropWhile Char.isWhitespace).reverse

/-- Python `str.strip()`: drop leading and trailing whitespace. -/
def pyStrip (s : String) : String :=
  String.mk (trimChars s.toList)

/-- Python `str.lower()` (ASCII case folding). -/
def pyLower (s : String) : String :=
  String.mk (s.toList.map Char.toLower)

/-- `p` is a prefix of `s`, character by character. -/
def listPrefixOf : List Char → List Char → Bool
  | [], _ => true
  | _ :: _, [] => false
  | c :: cs, d :: ds => c == d && listPrefixOf cs ds

/-- `s.startswith(p)` / the regex match `^p` used on column labels. -/
def strStartsWith (s p : String) : Bool :=
  listPrefixOf p.toList s.toList

/-- Python `str()` applied to a scalar cell, as done by `astype(str)`:
strings pass through, NaN renders as "nan". A numeric cell renders through
the rational `toString`; no classification below depends on that rendering,
only on the fact that it is a digit string and never a status keyword. -/
def pyStrOf : PyVal → String
  | PyVal.str s => s
  | PyVal.num q => toString q
  | PyVal.nan => "nan"

/-- One cell of `df["Status"].astype(str).str.strip().str.lower()`. -/
def normalizeStatusCell (v : PyVal) : PyVal :=
  PyVal.str (pyLower (pyStrip (pyStrOf v)))

/-! ## Numeric string parsing (Python `float()` on cleaned salary strings) -/

/-- Numeric value of a list of decimal digit characters. -/
def natOfDigits (ds : List Char) : Nat :=
  ds.foldl (fun a c => 10 * a + (c.toNat - 48)) 0

/-- `10 ^ e` over the rationals for an integer exponent. -/
def ratPow10 : Int → Rat
  | Int.ofNat n => (10 : Rat) ^ n
  | Int.negSucc n => 1 / ((10 : Rat) ^ (n + 1))

/-- Parse an unsigned decimal mantissa `digits [. digits]` (at least one
digit overall), returning its value and the unconsumed characters. -/
def parseMantissa (cs : List Char) : Option (Rat × List Char) :=
  let ip := cs.takeWhile Char.isDigit
  let r1 := cs.dropWhile Char.isDigit
  match r1 with
  | '.' :: r2 =>
    let fp := r2.takeWhile Char.isDigit
    let r3 := r2.dropWhile Char.isDigit
    if ip.isEmpty && fp.isEmpty then none
    else some ((natOfDigits ip : Rat) + (natOfDigits fp : Rat) / ((10 : Rat) ^ fp.length), r3)
  | _ => if ip.isEmpty then none else some ((natOfDigits ip : Rat), r1)

/-- Exponent digits after `e`/`E` with an optional sign already split off. -/
def parseExpDigits (sgn : Int) (cs : List Char) : Option (Int × List Char) :=
  let ds := cs.takeWhile Char.isDigit
  let rest := cs.dropWhile Char.isDigit
  if ds.isEmpty then none else some (sgn * (natOfDigits ds : Int), rest)

/-- Optional exponent part `[(e|E) [+|-] digits]` of a float literal. -/
def parseExpPart : List Char → Option (Int × List Char)
  | [] => some (0, [])
  | c :: rest =>
    if c == 'e' || c == 'E' then
      match rest with
      | '+' :: r => parseExpDigits 1 r
      | '-' :: r => parseExpDigits (-1) r
      | r => parseExpDigits 1 r
    else some (0, c :: rest)

/-- Signed mantissa and exponent, requiring all input consumed. -/
def pyFloatUnsigned (sgn : Rat) (cs : List Char) : Option Rat :=
  match parseMantissa cs with
  | none => none
  | some (m, r1) =>
    match parseExpPart r1 with
    | none => none
    | some (e, r2) => if r2.isEmpty then some (sgn * m * ratPow10 e) else none

/-- CPython `float(s)` on finite decimal literals: surrounding whitespace is
stripped, then `[+|-] digits [. digits] [(e|E) [+|-] digits]` is accepted.
The special literals `inf`/`nan`, hex floats and underscore digit
separators produce non-finite or exotic values outside the rational model
and are treated as unparseable here. -/
def pythonFloat? (s : String) : Option Rat :=
  match trimChars s.toList with
  | '+' :: r => pyFloatUnsigned 1 r
  | '-' :: r => pyFloatUnsigned (-1) r
  | r => pyFloatUnsigned 1 r

/-- `salary_value.replace('$', '').replace(',', '').strip()`: both patterns
are single characters, so replacement by the empty string is exactly
dropping those characters, then stripping whitespace. -/
def cleanSalary (s : String) : String :=
  pyStrip (String.mk (s.toList.filter (fun c => !(c == '$') && !(c == ','))))

/-- `parse_salary` (api_server.py lines 59-77): NaN (`pd.isna`) gives 0;
a finite number (`isinstance(value, (int, float))`) is returned as a float,
numerically unchanged; a string is cleaned of `$`, `,` and whitespace and
converted with `float()`, giving 0 when conversion fails. (The trailing
`return 0` for scalars of other Python types has no counterpart because
`PyVal` has no further constructors.) -/
def parse_salary (v : PyVal) : Rat :=
  match v with
  | PyVal.nan => 0
  | PyVal.num q => q
  | PyVal.str s =>
    match pythonFloat? (cleanSalary s) with
    | some q => q
    | none => 0

/-! ## Table loaders -/

/-- A Python exception escaping a region of code. -/
inductive PyErr where
  | keyError (k : String)
deriving DecidableEq, Repr

/-- `str(e)` for the exceptions modelled here (`str(KeyError(k))` is the
quoted key). -/
def pyErrMsg : PyErr → String
  | PyErr.keyError k => "'" ++ k ++ "'"

/-- `load_data` (api_server.py lines 19-39). The `pd.read_csv` call and its
network / parse effects are the `fetch` outcome; its failure is caught by
the `try`/`except` and yields an empty frame with the "Error" label. On a
successful fetch the code then (outside the `try`) drops all-NaN rows,
strips column labels, and lowercases the stripped `Status` column; the
access `df["Status"]` raises `KeyError` past the function boundary when the
fetched frame has no `Status` column, modelled by the `Except.error`
result. -/
def load_data (fetch : Except Unit DF) : Except PyErr (DF × String) :=
  match fetch with
  | Except.error _ => Except.ok (⟨[], []⟩, "Error")
  | Except.ok df0 =>
    let df1 : DF := ⟨df0.cols, dropAllNaN df0.rows⟩
    let df2 : DF := ⟨df1.cols.map pyStrip, df1.rows⟩
    match df2.colIdx "Status" with
    | none => Except.error (PyErr.keyError "Status")
    | some si =>
      Except.ok
        (⟨df2.cols,
          df2.rows.map (fun r => r.set si (normalizeStatusCell (r.getD si PyVal.nan)))⟩,
         "Google Sheets")

/-- Select the columns of `df` at the given index list, in order. -/
def selectCols (df : DF) (keep : List Nat) : DF :=
  ⟨keep.map (fun j => df.cols.getD j ""),
   df.rows.map (fun r => keep.map (fun j => r.getD j PyVal.nan))⟩

/-- `load_jobs_data` (api_server.py lines 41-57). The whole body sits inside
the `try`, so every failure degrades to an empty frame. On success: drop
columns whose label matches `^Unnamed`, drop the `JV Link` / `JV ID`
columns, drop all-NaN rows, and fill remaining NaN cells with `""`. -/
def load_jobs_data (fetch : Except Unit DF) : DF :=
  match fetch with
  | Except.error _ => ⟨[], []⟩
  | Except.ok df0 =>
    let k1 := (List.range df0.cols.length).filter
        (fun j => !(strStartsWith (df0.cols.getD j "") "Unnamed"))
    let df1 := selectCols df0 k1
    let k2 := (List.range df1.cols.length).filter
        (fun j => !(df1.cols.getD j "" == "JV Link") && !(df1.cols.getD j "" == "JV ID"))
    let df2 := selectCols df1 k2
    ⟨df2.cols, fillBlank (dropAllNaN df2.rows)⟩

/-! ## Candidate classifier predicates (get_dashboard_data lines 122-139) -/

/-- The status set of the `non_identified` count. -/
def nonIdentifiedStatuses : List String :=
  ["free agent discussing opportunity", "unassigned", "training"]

/-- The status set excluded from `ready_for_placement`. -/
def readyExcludedStatuses : List String :=
  ["position identified", "offer pending", "offer accepted"]

/-- `df["Status"] == "offer pending"` on one cell. -/
def isOfferPending (st : PyVal) : Bool :=
  st == PyVal.str "offer pending"

/-- `df["Status"] == "offer accepted"` on one cell. -/
def isOfferAccepted (st : PyVal) : Bool :=
  st == PyVal.str "offer accepted"

/-- `df["Status"].isin(["free agent discussing opportunity", "unassigned",
"training"])` on one cell. -/
def isNonIdentified (st : PyVal) : Bool :=
  nonIdentifiedStatuses.any (fun s => st == PyVal.str s)

/-- `lambda x: isinstance(x, (int, float)) and x > 6` on one `Week` cell.
A NaN week is a float for `isinstance` but every comparison with it is
false, so it is excluded, as are strings. -/
def weekGT6 : PyVal → Bool
  | PyVal.num q => decide (6 < q)
  | _ => false

/-- `lambda x: isinstance(x, (int, float)) and x <= 6` on one `Week` cell
(NaN comparisons are false, strings are not numbers). -/
def weekLE6 : PyVal → Bool
  | PyVal.num q => decide (q ≤ 6)
  | _ => false

/-- Membership in the `ready_for_placement` bucket: numeric week above 6 and
status outside `readyExcludedStatuses`. -/
def isReadyForPlacement (st wk : PyVal) : Bool :=
  weekGT6 wk && !(readyExcludedStatuses.any (fun s => st == PyVal.str s))

/-- Membership in the `in_training` bucket: status `"training"` and numeric
week at most 6. -/
def isInTraining (st wk : PyVal) : Bool :=
  (st == PyVal.str "training") && weekLE6 wk

/-- `len(df[df["Status"] == "offer pending"])` with `si` the index of the
`Status` column. -/
def countOfferPending (df : DF) (si : Nat) : Nat :=
  df.rows.countP (fun r => isOfferPending (r.getD si PyVal.nan))

/-- `len(df[df["Status"] == "offer accepted"])`. -/
def countOfferAccepted (df : DF) (si : Nat) : Nat :=
  df.rows.countP (fun r => isOfferAccepted (r.getD si PyVal.nan))

/-- `len(df[df["Status"].isin([...])])`, the `non_identified` count. -/
def countNonIdentified (df : DF) (si : Nat) : Nat :=
  df.rows.countP (fun r => isNonIdentified (r.getD si PyVal.nan))

/-- `ready_count` with `si`, `wi` the `Status` / `Week` column indices. -/
def countReady (df : DF) (si wi : Nat) : Nat :=
  df.rows.countP (fun r => isReadyForPlacement (r.getD si PyVal.nan) (r.getD wi PyVal.nan))

/-- The `in_training` count. -/
def countInTraining (df : DF) (si wi : Nat) : Nat :=
  df.rows.countP (fun r => isInTraining (r.getD si PyVal.nan) (r.getD wi PyVal.nan))

/-! ## Mock score generator (api_server.py lines 79-94)

The generator is embedded parametrically in the pseudo-random machinery: a
`RandomModule` packages the observable interface of Python's global
`random` module (`seed(n)`, argumentless `seed()` drawing fresh OS entropy,
`randint`, and `choice` reduced to the index it picks), and the MD5-derived
seed `int(md5(name.encode()).hexdigest()[:8], 16)` is a parameter
`md5seed`. The claims settled below (determinism in the name, and what
happens to the global state) depend only on the state flow of the function
body, not on the internals of MD5 or the Mersenne Twister, and are stated
for every instantiation. -/

/-- Interface of Python's process-wide `random` module. `State` is the
global generator state; `seedFresh` is the state produced by the
argumentless `random.seed()` from ambient OS entropy; `choice g n` returns
the index picked from a sequence of length `n`. -/
structure RandomModule where
  State : Type
  seedInit : Nat → State
  seedFresh : State
  randint : State → Nat → Nat → Nat × State
  choice : State → Nat → Nat × State

/-- The score bundle returned by `generate_mock_scores`. -/
structure Scores where
  qbr_score : Nat
  assessment_score : Nat
  performance_score : Nat
  confidence_score : Nat
  skill_ranking : String
deriving DecidableEq, Repr

/-- The fixed list passed to `random.choice`. -/
def skillRankings : List String :=
  ["Top 10%", "Top 15%", "Top 20%", "Top 25%"]

/-- `generate_mock_scores` (api_server.py lines 79-94) as a transformer of
the global random state `g`: seed the global generator from the name hash
(discarding `g`), draw four bounded integers and one choice index in the
order of the dict literal, then execute the argumentless `random.seed()`,
leaving the fresh-entropy state behind. -/
def generate_mock_scores (R : RandomModule) (md5seed : String → Nat)
    (name : String) (g : R.State) : Scores × R.State :=
  let g0 := R.seedInit (md5seed name)
  let (q, g1) := R.randint g0 65 90
  let (a, g2) := R.randint g1 70 95
  let (p, g3) := R.randint g2 75 95
  let (c, g4) := R.randint g3 70 90
  let (i, _g5) := R.choice g4 skillRankings.length
  (⟨q, a, p, c, skillRankings.getD i ""⟩, R.seedFresh)

/-- A small concrete `RandomModule` instance used to evaluate the generator
on explicit inputs. -/
def ToyRandom : RandomModule where
  State := Nat
  seedInit := fun n => n
  seedFresh := 1
  randint := fun g a _ => (a, g + 1)
  choice := fun g _ => (0, g + 1)

instance : DecidableEq ToyRandom.State :=
  inferInstanceAs (DecidableEq Nat)

instance : OfNat ToyRandom.State 0 :=
  inferInstanceAs (OfNat Nat 0)

/-! ## Endpoint response shapes -/

/-- The metrics object of `GET /api/dashboard-data`. -/
structure Metrics where
  total_candidates : Nat
  ready_for_placement : Nat
  in_training : Nat
  offer_pending : Nat
  open_jobs : Nat
  data_source : String
deriving DecidableEq, Repr

/-- Response of `GET /api/dashboard-data`: the metrics JSON with HTTP 200,
or the body `{'error': msg}` with the given HTTP status code. -/
inductive DashResp where
  | ok (m : Metrics)
  | errorBody (code : Nat) (msg : String)
deriving DecidableEq, Repr

/-- A candidate record of the list endpoints. -/
structure CandRec where
  name : PyVal
  training_site : PyVal
  location : PyVal
  week : PyVal
  level : PyVal
  salary : Rat
deriving DecidableEq, Repr

/-- Response of `GET /api/candidates`: a JSON list with HTTP 200, or the
body `{'error': msg}` with the given HTTP status code. -/
inductive ListResp where
  | okList (recs : List CandRec)
  | errorBody (code : Nat) (msg : String)
deriving DecidableEq, Repr

/-- The profile object of `GET /api/candidate/{name}`. -/
structure CandProfile where
  name : PyVal
  training_site : PyVal
  location : PyVal
  week : PyVal
  level : PyVal
  salary : Rat
  scores : Scores
deriving DecidableEq, Repr

/-- Response of `GET /api/candidate/{name}`: the profile JSON with HTTP 200,
or the body `{'error': msg}` with the given HTTP status code. -/
inductive ProfileResp where
  | ok (p : CandProfile)
  | errorBody (code : Nat) (msg : String)
deriving DecidableEq, Repr

/-- A job-posting record of `GET /api/open-positions`. -/
structure JobRec where
  job_title : PyVal
  account : PyVal
  city : PyVal
  state : PyVal
  vertical : PyVal
  salary : PyVal
deriving DecidableEq, Repr

/-- Response of `GET /api/open-positions`: a JSON list with HTTP 200, or the
body `{'error': msg}` with the given HTTP status code. -/
inductive JobsResp where
  | okList (recs : List JobRec)
  | errorBody (code : Nat) (msg : String)
deriving DecidableEq, Repr

/-! ## Endpoints -/

/-- `get_dashboard_data` (api_server.py lines 105-154). The endpoint's
`try`/`except` converts an exception raised by `load_data` into a 500 body
with `str(e)`; an empty frame gives the 500 body `No data available`;
otherwise the five bucket counts are computed over the `Status` / `Week`
columns (a missing `Week` column raises `KeyError`, caught into a 500
body). `open_jobs` is the jobs row count, or 0 for an empty jobs frame. -/
def get_dashboard_data (loadRes : Except PyErr (DF × String))
    (jobsFetch : Except Unit DF) : DashResp :=
  match loadRes with
  | Except.error e => DashResp.errorBody 500 (pyErrMsg e)
  | Except.ok (df, data_source) =>
    let jobs := load_jobs_data jobsFetch
    if df.isEmpty then DashResp.errorBody 500 "No data available"
    else
      match df.colIdx "Status" with
      | none => DashResp.errorBody 500 (pyErrMsg (PyErr.keyError "Status"))
      | some si =>
        match df.colIdx "Week" with
        | none => DashResp.errorBody 500 (pyErrMsg (PyErr.keyError "Week"))
        | some wi =>
          DashResp.ok
            { total_candidates := countNonIdentified df si + countOfferAccepted df si
              ready_for_placement := countReady df si wi
              in_training := countInTraining df si wi
              offer_pending := countOfferPending df si
              open_jobs := if jobs.isEmpty then 0 else jobs.rows.length
              data_source := data_source }

/-- One candidate dict of the list endpoints (api_server.py lines 172-187):
`row['MIT Name']` raises `KeyError` when the column is absent; `Week` is
fetched with default `'—'` and a NaN week is replaced by `'—'`; the salary
is `parse_salary(row.get('Salary', 0))`. -/
def buildCandidate (df : DF) (r : List PyVal) : Except PyErr CandRec :=
  match df.colIdx "MIT Name" with
  | none => Except.error (PyErr.keyError "MIT Name")
  | some ni =>
    let week0 := rowGet df r "Week" (PyVal.str "—")
    let week := if week0 == PyVal.nan then PyVal.str "—" else week0
    Except.ok
      { name := r.getD ni PyVal.nan
        training_site := rowGet df r "Training Site" (PyVal.str "—")
        location := rowGet df r "Location" (PyVal.str "—")
        week := week
        level := rowGet df r "Level" (PyVal.str "—")
        salary := parse_salary (rowGet df r "Salary" (PyVal.num 0)) }

/-- `get_candidates` (api_server.py lines 156-192): an exception from
`load_data` is caught into a 500 body; an empty frame returns the empty
JSON list with HTTP 200; otherwise the ready-for-placement rows are
selected (the `Week` mask is evaluated before the `Status` mask, so a
missing column raises in that order) and mapped to candidate dicts. -/
def get_candidates (loadRes : Except PyErr (DF × String)) : ListResp :=
  match loadRes with
  | Except.error e => ListResp.errorBody 500 (pyErrMsg e)
  | Except.ok (df, _) =>
    if df.isEmpty then ListResp.okList []
    else
      match df.colIdx "Week" with
      | none => ListResp.errorBody 500 (pyErrMsg (PyErr.keyError "Week"))
      | some wi =>
        match df.colIdx "Status" with
        | none => ListResp.errorBody 500 (pyErrMsg (PyErr.keyError "Status"))
        | some si =>
          let ready := df.rows.filter (fun r =>
            isReadyForPlacement (r.getD si PyVal.nan) (r.getD wi PyVal.nan))
          match ready.mapM (buildCandidate df) with
          | Except.ok recs => ListResp.okList recs
          | Except.error e => ListResp.errorBody 500 (pyErrMsg e)

/-- `get_candidate_profile` (api_server.py lines 194-230): 500 body on a
loader exception or an empty frame; `df[df['MIT Name'] == name]` raises
`KeyError` (caught into a 500 body) when the column is absent; when no row
matches exactly, the 404 body `Candidate not found`; otherwise the first
matching row is joined with a freshly generated score bundle. The global
random state `g` is threaded: paths that never reach the generator leave it
untouched. -/
def get_candidate_profile (R : RandomModule) (md5seed : String → Nat)
    (loadRes : Except PyErr (DF × String)) (name : String) (g : R.State) :
    ProfileResp × R.State :=
  match loadRes with
  | Except.error e => (ProfileResp.errorBody 500 (pyErrMsg e), g)
  | Except.ok (df, _) =>
    if df.isEmpty then (ProfileResp.errorBody 500 "No data available", g)
    else
      match df.colIdx "MIT Name" with
      | none => (ProfileResp.errorBody 500 (pyErrMsg (PyErr.keyError "MIT Name")), g)
      | some ni =>
        match df.rows.filter (fun r => r.getD ni PyVal.nan == PyVal.str name) with
        | [] => (ProfileResp.errorBody 404 "Candidate not found", g)
        | row :: _ =>
          let (mock_scores, g1) := generate_mock_scores R md5seed name g
          let week0 := rowGet df row "Week" (PyVal.str "—")
          let week := if week0 == PyVal.nan then PyVal.str "—" else week0
          (ProfileResp.ok
            { name := row.getD ni PyVal.nan
              training_site := rowGet df row "Training Site" (PyVal.str "—")
              location := rowGet df row "Location" (PyVal.str "—")
              week := week
              level := rowGet df row "Level" (PyVal.str "—")
              salary := parse_salary (rowGet df row "Salary" (PyVal.num 0))
              scores := mock_scores }, g1)

/-- One job dict of `GET /api/open-positions` (api_server.py lines 357-364):
every field is fetched with `row.get(label, '—')`, so only an absent column
falls back to the placeholder (NaN cells were already filled with `""` by
the loader). -/
def buildJob (df : DF) (r : List PyVal) : JobRec :=
  { job_title := rowGet df r "Job Title" (PyVal.str "—")
    account := rowGet df r "Account" (PyVal.str "—")
    city := rowGet df r "City" (PyVal.str "—")
    state := rowGet df r "State" (PyVal.str "—")
    vertical := rowGet df r "VERT" (PyVal.str "—")
    salary := rowGet df r "Salary" (PyVal.str "—") }

/-- `get_open_positions` (api_server.py lines 346-369): the loaded jobs
frame (never an exception) gives the empty JSON list when empty, and the
row-wise job dicts otherwise. -/
def get_open_positions (jobsFetch : Except Unit DF) : JobsResp :=
  let jobs := load_jobs_data jobsFetch
  if jobs.isEmpty then JobsResp.okList []
  else JobsResp.okList (jobs.rows.map (buildJob jobs))

/-! ## Helper lemmas -/

/-- Label lookup succeeds on any column list containing the label. -/
theorem colIdxAux_isSome_of_mem (c : String) :
    ∀ (l : List String), c ∈ l → (colIdxAux c l).isSome = true := by
  intro l
  induction l with
  | nil => intro h; cases h
  | cons a t ih =>
    intro h
    rw [colIdxAux]
    by_cases hac : (a == c) = true
    · rw [if_pos hac]; rfl
    · rw [if_neg hac]
      have ht : c ∈ t := by
        cases h with
        | head => exact absurd (by simp) hac
        | tail _ hmem => exact hmem
      cases hck : colIdxAux c t with
      | none =>
        have := ih ht
        rw [hck] at this
        cases this
      | some i => rfl

/-! ## Claims -/

/-- Claim C1: for every candidate table served by `GET /api/dashboard-data`
(in particular every table produced by `load_data`, whose `Status` cells
are the whitespace-stripped, lowercased statuses), the `total_candidates`
value of a successful response equals the count of rows whose status cell
lies in `{"free agent discussing opportunity", "unassigned", "training"}`
plus the count of rows whose status cell equals `"offer accepted"`,
exactly. -/
theorem total_candidates_eq (df : DF) (src : String) (jobsFetch : Except Unit DF)
    (m : Metrics) (si : Nat)
    (hs : df.colIdx "Status" = some si)
    (h : get_dashboard_data (Except.ok (df, src)) jobsFetch = DashResp.ok m) :
    m.total_candidates = countNonIdentified df si + countOfferAccepted df si := by
  simp only [get_dashboard_data] at h
  split at h
  · exact DashResp.noConfusion h
  · split at h
    · exact DashResp.noConfusion h
    · rename_i si' heq
      split at h
      · exact DashResp.noConfusion h
      · rename_i wi heq2
        rw [hs] at heq
        injection heq with hsi
        subst hsi
        injection h with h'
        subst h'
        rfl

/-- Concrete run of the C1 theorem: a one-row table with status
`"training"` and week 4 gives `total_candidates = 1 + 0`. -/
theorem total_candidates_eq_witness :
    (Metrics.mk 1 0 1 0 0 "Google Sheets").total_candidates
      = countNonIdentified ⟨["Status", "Week"], [[PyVal.str "training", PyVal.num 4]]⟩ 0
        + countOfferAccepted ⟨["Status", "Week"], [[PyVal.str "training", PyVal.num 4]]⟩ 0 :=
  total_candidates_eq ⟨["Status", "Week"], [[PyVal.str "training", PyVal.num 4]]⟩
    "Google Sheets" (Except.error ()) (Metrics.mk 1 0 1 0 0 "Google Sheets") 0
    (by decide) (by decide)

/-- Claim C2: for every status and week cell, the `offer_pending` bucket is
disjoint from the `ready_for_placement` bucket (the status `"offer
pending"` is in the excluded status set of the ready predicate), and the
`in_training` bucket is disjoint from the `ready_for_placement` bucket
(week at most 6 and week above 6 exclude each other on the same numeric
week, and a non-numeric week is in neither). Disjointness of the per-row
predicates gives disjointness of the row buckets they carve out of any
candidate table. -/
theorem buckets_disjoint (st wk : PyVal) :
    (isOfferPending st = true → isReadyForPlacement st wk = false)
    ∧ (isInTraining st wk = true → isReadyForPlacement st wk = false) := by
  constructor
  · intro h
    have hst : st = PyVal.str "offer pending" := eq_of_beq h
    subst hst
    have hany : (readyExcludedStatuses.any
        (fun s => PyVal.str "offer pending" == PyVal.str s)) = true := by decide
    rw [isReadyForPlacement, hany]
    rw [Bool.not_true, Bool.and_false]
  · intro h
    rw [isInTraining, Bool.and_eq_true] at h
    obtain ⟨_h1, h2⟩ := h
    cases wk with
    | num q =>
      have hq : q ≤ 6 := of_decide_eq_true h2
      rw [isReadyForPlacement, weekGT6]
      rw [decide_eq_false (not_lt.mpr hq), Bool.false_and]
    | str s => rfl
    | nan => rfl

/-- Concrete runs of the C2 theorem: an offer-pending row with week 7 is
not ready-for-placement, and a training row with week 3 is not
ready-for-placement. -/
theorem buckets_disjoint_witness :
    isReadyForPlacement (PyVal.str "offer pending") (PyVal.num 7) = false
    ∧ isReadyForPlacement (PyVal.str "training") (PyVal.num 3) = false :=
  ⟨(buckets_disjoint (PyVal.str "offer pending") (PyVal.num 7)).1 (by decide),
   (buckets_disjoint (PyVal.str "training") (PyVal.num 3)).2 (by decide)⟩

/-- Claim C3: `parse_salary` maps the string `"$1,234.50"` to `1234.5`;
returns 0 on missing (NaN) input and on any string whose cleaned form fails
numeric conversion (a malformed string); and returns finite numeric input
unchanged, for every such input. -/
theorem parse_salary_contract :
    parse_salary (PyVal.str "$1,234.50") = (1234.5 : Rat)
    ∧ parse_salary PyVal.nan = 0
    ∧ (∀ s : String, pythonFloat? (cleanSalary s) = none → parse_salary (PyVal.str s) = 0)
    ∧ ∀ q : Rat, parse_salary (PyVal.num q) = q := by
  refine ⟨by decide, rfl, ?_, fun q => rfl⟩
  intro s h
  simp only [parse_salary]
  rw [h]

/-- Concrete runs of the C3 theorem: the malformed string `"abc"` parses to
0, and the number 7 is returned unchanged. -/
theorem parse_salary_contract_witness :
    parse_salary (PyVal.str "abc") = 0 ∧ parse_salary (PyVal.num 7) = 7 :=
  ⟨parse_salary_contract.2.2.1 "abc" (by decide), parse_salary_contract.2.2.2 7⟩

/-- Claim C4, counterexample: a successful fetch whose table has no
`Status` column makes `load_data` raise `KeyError('Status')` past its
boundary (the `Except.error` result models the uncaught exception escaping
the function: the `df["Status"]` access on line 37 sits outside the
`try`/`except`), instead of returning an empty table. -/
theorem load_data_missing_status_raises :
    load_data (Except.ok ⟨["Week"], [[PyVal.num 3]]⟩)
      = Except.error (PyErr.keyError "Status") := by decide

/-- Claim C4, amended: `load_jobs_data` never raises and returns an empty
table on any fetch/parse failure; `load_data` returns an empty table with
the `"Error"` source label on any fetch/parse failure, and does not raise
on a successful fetch provided the fetched table has a `Status` column
(after header whitespace stripping). -/
theorem loaders_never_raise (raw : DF)
    (hs : "Status" ∈ raw.cols.map pyStrip) :
    load_jobs_data (Except.error ()) = (⟨[], []⟩ : DF)
    ∧ load_data (Except.error ()) = Except.ok ((⟨[], []⟩ : DF), "Error")
    ∧ (load_data (Except.ok raw)).isOk = true := by
  refine ⟨rfl, rfl, ?_⟩
  simp only [load_data]
  split
  · rename_i heq
    have h1 := colIdxAux_isSome_of_mem "Status" (raw.cols.map pyStrip) hs
    rw [DF.colIdx] at heq
    simp only at heq
    rw [heq] at h1
    cases h1
  · rfl

/-- Concrete run of the C4 theorem: a fetched table whose header is
`"Status "` (trailing blank stripped by the loader) loads without
raising. -/
theorem loaders_never_raise_witness :
    (load_data (Except.ok ⟨["Status "], [[PyVal.str "Training"]]⟩)).isOk = true :=
  (loaders_never_raise ⟨["Status "], [[PyVal.str "Training"]]⟩ (by decide)).2.2

/-- Claim C5: `generate_mock_scores` is deterministic in the candidate
name. The body seeds the global generator from the name hash before any
draw, so the score bundle is independent of the incoming global random
state: two calls with the same name within a process run (same random
machinery `R`, same hash function, any interleaving global states `g`,
`g'`) return identical score bundles. -/
theorem generate_mock_scores_deterministic (R : RandomModule)
    (md5seed : String → Nat) (name : String) (g g' : R.State) :
    (generate_mock_scores R md5seed name g).1
      = (generate_mock_scores R md5seed name g').1 := rfl

/-- Claim C6, counterexample: `parse_salary` on the numeric input -5
returns -5, a negative number, so the result of `parse_salary` is not
non-negative for every input value. -/
theorem parse_salary_negative_input :
    ¬ (0 ≤ parse_salary (PyVal.num (-5))) := by decide

/-- Claim C6, amended: the result of `parse_salary` is 0 on missing input
and on any string whose cleaned form fails numeric conversion, and is
non-negative whenever the input is not a negative number and not a string
that parses to a negative number (the code passes negative numeric input
and negative parsed strings through unchanged). -/
theorem parse_salary_nonneg (v : PyVal)
    (hnum : ∀ q : Rat, v = PyVal.num q → 0 ≤ q)
    (hstr : ∀ s : String, v = PyVal.str s →
      ∀ q : Rat, pythonFloat? (cleanSalary s) = some q → 0 ≤ q) :
    0 ≤ parse_salary v := by
  cases v with
  | nan => simp [parse_salary]
  | num q => exact hnum q rfl
  | str s =>
    simp only [parse_salary]
    cases h : pythonFloat? (cleanSalary s) with
    | none => simp
    | some q => exact hstr s rfl q h

/-- Concrete run of the C6 theorem: `"$1,234.50"` parses to a non-negative
salary. -/
theorem parse_salary_nonneg_witness :
    0 ≤ parse_salary (PyVal.str "$1,234.50") := by
  apply parse_salary_nonneg
  · intro q h
    exact PyVal.noConfusion h
  · intro s hs q hq
    injection hs with hs'
    subst hs'
    have hval : pythonFloat? (cleanSalary "$1,234.50") = some (1234.5 : Rat) := by decide
    rw [hval] at hq
    injection hq with hq'
    subst hq'
    decide

/-- Claim C7: when the candidate table handed to the endpoints is empty at
request time, `GET /api/dashboard-data` returns the JSON error body
`{'error': 'No data available'}` with status 500, while
`GET /api/candidates` returns the empty JSON list with a success (200)
status. -/
theorem empty_table_responses (df : DF) (src : String) (jobsFetch : Except Unit DF)
    (h : df.isEmpty = true) :
    get_dashboard_data (Except.ok (df, src)) jobsFetch
      = DashResp.errorBody 500 "No data available"
    ∧ get_candidates (Except.ok (df, src)) = ListResp.okList [] := by
  constructor
  · simp [get_dashboard_data, h]
  · simp [get_candidates, h]

/-- Concrete run of the C7 theorem at the empty table produced by a failed
fetch. -/
theorem empty_table_responses_witness :
    get_dashboard_data (Except.ok ((⟨[], []⟩ : DF), "Error")) (Except.error ())
      = DashResp.errorBody 500 "No data available"
    ∧ get_candidates (Except.ok ((⟨[], []⟩ : DF), "Error")) = ListResp.okList [] :=
  empty_table_responses ⟨[], []⟩ "Error" (Except.error ()) (by decide)

/-- Claim C8, counterexample: on an empty candidate table no row's name
field matches `"UnknownName"` (vacuously), yet `GET /api/candidate/{name}`
returns the 500 body `No data available`, not a 404 — the empty-table
check precedes the name lookup. -/
theorem candidate_profile_empty_table_not_404 :
    (get_candidate_profile ToyRandom (fun _ => 0)
        (Except.ok (⟨["MIT Name", "Status", "Week"], []⟩, "Google Sheets"))
        "UnknownName" 0).1
      = ProfileResp.errorBody 500 "No data available"
    ∧ ProfileResp.errorBody 500 "No data available"
        ≠ ProfileResp.errorBody 404 "Candidate not found" := by
  exact ⟨rfl, by decide⟩

/-- Claim C8, amended: whenever the candidate table is non-empty, has an
`MIT Name` column, and no row's name cell equals the requested name
exactly, the endpoint returns the JSON error body
`{'error': 'Candidate not found'}` with a not-found (404) status (and
leaves the global random state untouched). -/
theorem candidate_not_found_404 (R : RandomModule) (md5seed : String → Nat)
    (df : DF) (src name : String) (g : R.State) (ni : Nat)
    (hne : df.isEmpty = false)
    (hcol : df.colIdx "MIT Name" = some ni)
    (hnomatch : ∀ r ∈ df.rows, r.getD ni PyVal.nan ≠ PyVal.str name) :
    get_candidate_profile R md5seed (Except.ok (df, src)) name g
      = (ProfileResp.errorBody 404 "Candidate not found", g) := by
  have hfil : df.rows.filter (fun r => r.getD ni PyVal.nan == PyVal.str name) = [] := by
    rw [List.filter_eq_nil_iff]
    intro r hr hc
    exact hnomatch r hr (eq_of_beq hc)
  simp only [List.getD_eq_getElem?_getD] at hfil
  simp [get_candidate_profile, hne, hcol, hfil]

/-- Concrete run of the C8 theorem: a one-row table whose only name is
`"Jane Doe"` gives a 404 for `"UnknownName"`. -/
theorem candidate_not_found_404_witness :
    get_candidate_profile ToyRandom (fun _ => 0)
      (Except.ok (⟨["MIT Name"], [[PyVal.str "Jane Doe"]]⟩, "Google Sheets"))
      "UnknownName" 0
      = (ProfileResp.errorBody 404 "Candidate not found", (0 : ToyRandom.State)) :=
  candidate_not_found_404 ToyRandom (fun _ => 0)
    ⟨["MIT Name"], [[PyVal.str "Jane Doe"]]⟩ "Google Sheets" "UnknownName" 0 0
    (by decide) (by decide) (by decide)

/-- Claim C9, counterexample: a jobs table whose `Job Title` column exists
but whose cell is blank (NaN) in the source is returned as the empty
string `""`, not the placeholder `"—"` — the loader's `fillna("")` fills
blank cells with `""` before `row.get(label, '—')` ever sees them. -/
theorem open_positions_blank_cell :
    get_open_positions (Except.ok ⟨["Job Title", "Account"], [[PyVal.nan, PyVal.str "Acme"]]⟩)
      = JobsResp.okList [⟨PyVal.str "", PyVal.str "Acme", PyVal.str "—",
          PyVal.str "—", PyVal.str "—", PyVal.str "—"⟩]
    ∧ PyVal.str "" ≠ PyVal.str "—" := by decide

/-- Claim C9, amended: in every `GET /api/open-positions` response, each
job-posting field whose entire source column is absent from the loaded
jobs table is returned as the placeholder string `"—"`; a field whose
column is present but whose cell was blank is instead the empty string
(NaN was filled with `""` at load time). -/
theorem open_positions_placeholder (jobsFetch : Except Unit DF)
    (recs : List JobRec) (rec : JobRec)
    (h : get_open_positions jobsFetch = JobsResp.okList recs)
    (hr : rec ∈ recs) :
    ((load_jobs_data jobsFetch).colIdx "Job Title" = none → rec.job_title = PyVal.str "—")
    ∧ ((load_jobs_data jobsFetch).colIdx "Account" = none → rec.account = PyVal.str "—")
    ∧ ((load_jobs_data jobsFetch).colIdx "City" = none → rec.city = PyVal.str "—")
    ∧ ((load_jobs_data jobsFetch).colIdx "State" = none → rec.state = PyVal.str "—")
    ∧ ((load_jobs_data jobsFetch).colIdx "VERT" = none → rec.vertical = PyVal.str "—")
    ∧ ((load_jobs_data jobsFetch).colIdx "Salary" = none → rec.salary = PyVal.str "—") := by
  simp only [get_open_positions] at h
  split at h
  · injection h with h'
    subst h'
    cases hr
  · injection h with h'
    subst h'
    obtain ⟨r, _hrmem, hrec⟩ := List.mem_map.mp hr
    subst hrec
    refine ⟨?_, ?_, ?_, ?_, ?_, ?_⟩ <;> intro hc <;> simp [buildJob, rowGet, hc]

/-- Concrete run of the C9 theorem: a jobs table with none of the six
posting columns yields the placeholder in the job_title field. -/
theorem open_positions_placeholder_witness :
    (JobRec.mk (PyVal.str "—") (PyVal.str "—") (PyVal.str "—") (PyVal.str "—")
        (PyVal.str "—") (PyVal.str "—")).job_title = PyVal.str "—" :=
  (open_positions_placeholder (Except.ok ⟨["Other"], [[PyVal.str "x"]]⟩)
      [JobRec.mk (PyVal.str "—") (PyVal.str "—") (PyVal.str "—") (PyVal.str "—")
        (PyVal.str "—") (PyVal.str "—")]
      (JobRec.mk (PyVal.str "—") (PyVal.str "—") (PyVal.str "—") (PyVal.str "—")
        (PyVal.str "—") (PyVal.str "—"))
      (by decide) (by decide)).1 (by decide)

/-- Claim C10, counterexample: the global random state is not restored by
`generate_mock_scores`. Evaluating the generator at a concrete random
machinery instance and pre-call state 0, the post-call state differs from
the pre-call state, so the state is not "as if the call had not
occurred". -/
theorem mock_scores_state_not_restored :
    (generate_mock_scores ToyRandom (fun _ => 0) "Jane Doe" 0).2 ≠ 0 := by decide

/-- Claim C10, amended: after every call, the global generator state is the
result of the argumentless `random.seed()` — a fresh entropy-based
seeding, independent of both the candidate name and the pre-call state.
The call therefore does have a side effect on unrelated randomness: it
overwrites the pre-call state rather than restoring it (it only prevents
later draws from continuing the name-seeded sequence). -/
theorem mock_scores_reseed_fresh (R : RandomModule) (md5seed : String → Nat)
    (name : String) (g : R.State) :
    (generate_mock_scores R md5seed name g).2 = R.seedFresh := rfl
